import Mathlib

/-!
Verification of the Allora action layer of cdp-agentkit
(`cdp_agentkit_core/actions/allora/`): the two handlers
`get_price_prediction` and `get_all_topics`, the pydantic input schema
`GetPricePredictionInput`, and the registry `get_all_allora_actions`.

Python exceptions are modelled as `Except String` values (the string is
the exception's message, what `f"{e}"` renders); the external
`AlloraAPIClient` is a record of fallible operations; each handler body
is a small program over client calls so that the calls a handler makes
are observable; `json.dumps(x, indent=4)` is modelled as a recursive
pretty-printer over a type of Python values that includes
non-JSON-serializable objects.
-/

/-- The `inference_data` component of the SDK prediction object: we only
model the one field the handler reads, `network_inference_normalized`
(a string-rendered value). -/
structure InferenceData where
  network_inference_normalized : String
deriving Repr, DecidableEq

/-- The prediction object returned by `client.get_price_prediction`. -/
structure PricePrediction where
  inference_data : InferenceData
deriving Repr, DecidableEq

/-- Python values as they reach `json.dumps`: strings, integers, lists,
dicts with string keys, and `obj t` — an arbitrary Python object of type
name `t` that is not JSON serializable. -/
inductive PyVal where
  | str : String → PyVal
  | int : Int → PyVal
  | list : List PyVal → PyVal
  | dict : List (String × PyVal) → PyVal
  | obj : String → PyVal
deriving Repr

/-- The external Allora API client capability: both operations may fail
with an exception, carried as its message string. `get_all_topics`
returns an arbitrary Python value (in practice a list of topics). -/
structure AlloraAPIClient where
  get_price_prediction : String → String → Except String PricePrediction
  get_all_topics : Except String PyVal

/-- One outbound call made through the client, with its arguments. -/
inductive ClientCall where
  | pricePrediction (token timeframe : String)
  | allTopics
deriving Repr, DecidableEq

/-- A handler body as a program over client calls: it either returns a
value or performs one of the two client operations and continues with
the operation's outcome (success or exception). -/
inductive ClientProg (α : Type) where
  | ret (a : α)
  | callPricePrediction (token timeframe : String)
      (k : Except String PricePrediction → ClientProg α)
  | callAllTopics (k : Except String PyVal → ClientProg α)

/-- Run a handler body against a concrete client, recording the list of
client calls performed, in order, alongside the result. -/
def runClient {α : Type} (c : AlloraAPIClient) :
    ClientProg α → List ClientCall × α
  | .ret a => ([], a)
  | .callPricePrediction t tf k =>
      let r := runClient c (k (c.get_price_prediction t tf))
      (ClientCall.pricePrediction t tf :: r.1, r.2)
  | .callAllTopics k =>
      let r := runClient c (k c.get_all_topics)
      (ClientCall.allTopics :: r.1, r.2)

/-- Escape one character for a JSON string literal, as Python's
`json.dumps` does for the characters our model can contain. -/
def jsonQuoteChar (c : Char) : String :=
  if c = '\\' then "\\\\"
  else if c = '\"' then "\\\""
  else if c = '\n' then "\\n"
  else if c = '\t' then "\\t"
  else if c = '\r' then "\\r"
  else String.singleton c

/-- A JSON string literal for `s`. -/
def jsonQuote (s : String) : String :=
  "\"" ++ String.join (s.toList.map jsonQuoteChar) ++ "\""

/-- `n` spaces of indentation. -/
def pad (n : Nat) : String :=
  String.mk (List.replicate n ' ')

/-- Lay out the already-rendered members of a container, as
`json.dumps(..., indent=4)` does at nesting level `lvl`: an empty
container renders as the two brackets, a non-empty one puts each member
on its own line indented four further spaces. -/
def jsonWrap (lvl : Nat) (l r : String) (parts : List String) : String :=
  match parts with
  | [] => l ++ r
  | _ =>
      l ++ "\n"
        ++ String.intercalate ",\n" (parts.map (fun p => pad (lvl + 4) ++ p))
        ++ "\n" ++ pad lvl ++ r

mutual

/-- Python's `json.dumps(v, indent=4)` at nesting level `lvl`: renders
strings, integers, lists and dicts, and raises `TypeError` (modelled as
`.error` with the Python message) on a non-serializable object. -/
def dumpVal (lvl : Nat) : PyVal → Except String String
  | .str s => .ok (jsonQuote s)
  | .int n => .ok (toString n)
  | .obj t => .error ("Object of type " ++ t ++ " is not JSON serializable")
  | .list xs => do
      let parts ← dumpElems (lvl + 4) xs
      .ok (jsonWrap lvl "[" "]" parts)
  | .dict kvs => do
      let parts ← dumpEntries (lvl + 4) kvs
      .ok (jsonWrap lvl "\x7b" "\x7d" parts)

/-- Render the elements of a Python list for `json.dumps`. -/
def dumpElems (lvl : Nat) : List PyVal → Except String (List String)
  | [] => .ok []
  | x :: xs => do
      let s ← dumpVal lvl x
      let rest ← dumpElems lvl xs
      .ok (s :: rest)

/-- Render the `key: value` entries of a Python dict for `json.dumps`. -/
def dumpEntries (lvl : Nat) : List (String × PyVal) → Except String (List String)
  | [] => .ok []
  | (k, v) :: xs => do
      let s ← dumpVal lvl v
      let rest ← dumpEntries lvl xs
      .ok ((jsonQuote k ++ ": " ++ s) :: rest)

end

/-- `json.dumps(v, indent=4)` at top level. -/
def jsonDumps4 (v : PyVal) : Except String String :=
  dumpVal 0 v

/-- The body of the `get_price_prediction` handler: one client call
`client.get_price_prediction(token, timeframe)` inside `try`; on success
the f-string success message, on exception the f-string error message. -/
def get_price_prediction_body (token timeframe : String) : ClientProg String :=
  .callPricePrediction token timeframe fun r =>
    match r with
    | .ok p =>
        .ret ("The future price prediction for " ++ token ++ " in "
          ++ timeframe ++ " is " ++ p.inference_data.network_inference_normalized)
    | .error e => .ret ("Error getting price prediction: " ++ e)

/-- `get_price_prediction(client, token, timeframe)`: the string the
handler returns. -/
def get_price_prediction (c : AlloraAPIClient) (token timeframe : String) :
    String :=
  (runClient c (get_price_prediction_body token timeframe)).2

/-- The client calls `get_price_prediction(client, token, timeframe)`
performs, in order. -/
def get_price_prediction_calls (c : AlloraAPIClient) (token timeframe : String) :
    List ClientCall :=
  (runClient c (get_price_prediction_body token timeframe)).1

/-- The body of the `get_all_topics` handler: `client.get_all_topics()`
then `json.dumps(topics, indent=4)`, both inside the same `try`; on
success the header plus the JSON text, on any exception (from the call
or from serialization) the f-string error message. -/
def get_all_topics_body : ClientProg String :=
  .callAllTopics fun r =>
    match r.bind jsonDumps4 with
    | .ok topics_json =>
        .ret ("The available topics at Allora Network are:\n" ++ topics_json)
    | .error e => .ret ("Error getting all topics: " ++ e)

/-- `get_all_topics(client)`: the string the handler returns. -/
def get_all_topics (c : AlloraAPIClient) : String :=
  (runClient c get_all_topics_body).2

/-- The client calls `get_all_topics(client)` performs, in order. -/
def get_all_topics_calls (c : AlloraAPIClient) : List ClientCall :=
  (runClient c get_all_topics_body).1

/-- The pydantic input schema `GetPricePredictionInput`: two required
string fields. -/
structure GetPricePredictionInput where
  token : String
  timeframe : String
deriving Repr, DecidableEq

/-- Pydantic construction of `GetPricePredictionInput` from the keyword
arguments actually supplied (`none` = the field was not passed): both
fields are required (`Field(...)`), so any missing field raises a
`ValidationError`, modelled as `.error` with a message naming the
missing fields; with both supplied, construction succeeds and stores
both values unchanged. -/
def GetPricePredictionInput.validate :
    Option String → Option String → Except String GetPricePredictionInput
  | some t, some tf => .ok ⟨t, tf⟩
  | none, some _ =>
      .error "1 validation error for GetPricePredictionInput: token field required"
  | some _, none =>
      .error "1 validation error for GetPricePredictionInput: timeframe field required"
  | none, none =>
      .error "2 validation errors for GetPricePredictionInput: token field required; timeframe field required"

/-- Modelled from the spec: the handler slot of an action, Python's
`Callable[..., str]` — either a handler taking only the client
(`get_all_topics`) or one taking the client, token and timeframe
(`get_price_prediction`). The base-class file `action.py` is not under
`src/`; its shape is taken from the spec's ActionSpec description and
from the two concrete subclasses. -/
inductive ActionFunc where
  | clientOnly (f : AlloraAPIClient → String)
  | clientTokenTimeframe (f : AlloraAPIClient → String → String → String)

/-- Modelled from the spec: the optional input-validation schema slot
(`args_schema: type[BaseModel] | None`) — the only schema class in the
family is `GetPricePredictionInput`. -/
inductive ArgsSchema where
  | getPricePredictionInputSchema
deriving Repr, DecidableEq

/-- Modelled from the spec: the `AlloraAction` base class (`action.py`
is not under `src/`): a name, a description/prompt, an optional input
schema, and the handler function. -/
structure AlloraAction where
  name : String
  description : String
  args_schema : Option ArgsSchema
  func : ActionFunc

/-- The prompt text of the get-all-topics action. -/
def GET_ALL_TOPICS_PROMPT : String :=
  "\nThis tool will get all available topics from Allora Network.\n"

/-- The prompt text of the get-price-prediction action. -/
def GET_PRICE_PREDICTION_PROMPT : String :=
  "\nThis tool will get the future price prediction for a given crypto asset from Allora Network.\nIt takes the crypto asset and timeframe as inputs.\n"

/-- The concrete `AlloraAction` subclasses defined in the package; the
registry discovers them through `AlloraAction.__subclasses__()`. -/
inductive AlloraActionClass where
  | getAllTopicsActionClass
  | getPricePredictionActionClass
deriving Repr, DecidableEq

/-- Instantiate one action class (Python's `action()`), yielding the
instance with that class's declared field defaults. -/
def instantiateAction : AlloraActionClass → AlloraAction
  | .getAllTopicsActionClass =>
      { name := "get_all_topics"
        description := GET_ALL_TOPICS_PROMPT
        args_schema := none
        func := .clientOnly get_all_topics }
  | .getPricePredictionActionClass =>
      { name := "get_price_prediction"
        description := GET_PRICE_PREDICTION_PROMPT
        args_schema := some .getPricePredictionInputSchema
        func := .clientTokenTimeframe get_price_prediction }

/-- The loop of `get_all_allora_actions` over an arbitrary list of
discovered subclasses: instantiate each one, preserving order. -/
def get_all_allora_actions_from (subclasses : List AlloraActionClass) :
    List AlloraAction :=
  subclasses.map instantiateAction

/-- The subclass list `AlloraAction.__subclasses__()` sees once the
package is imported: the two concrete actions, in module-import order. -/
def alloraSubclasses : List AlloraActionClass :=
  [.getAllTopicsActionClass, .getPricePredictionActionClass]

/-- `get_all_allora_actions()`: one instance per known subclass. -/
def get_all_allora_actions : List AlloraAction :=
  get_all_allora_actions_from alloraSubclasses

/-- `ALLORA_ACTIONS`, computed once at import time. -/
def ALLORA_ACTIONS : List AlloraAction :=
  get_all_allora_actions

/-- C1: for every token, timeframe, and client whose price-prediction
call returns a prediction whose normalized network-inference value is
`v`, `get_price_prediction` returns exactly
"The future price prediction for {token} in {timeframe} is {v}". -/
theorem get_price_prediction_success_format
    (c : AlloraAPIClient) (token timeframe v : String) (p : PricePrediction)
    (hc : c.get_price_prediction token timeframe = .ok p)
    (hv : p.inference_data.network_inference_normalized = v) :
    get_price_prediction c token timeframe
      = "The future price prediction for " ++ token ++ " in " ++ timeframe
          ++ " is " ++ v := by
  subst hv
  simp [get_price_prediction, get_price_prediction_body, runClient, hc]

/-- Witness for C1: the mocked client of the test suite returning
normalized value "50000.00" for (BTC, 5m). -/
theorem get_price_prediction_success_format_witness :
    get_price_prediction
        ⟨fun _ _ => Except.ok ⟨⟨"50000.00"⟩⟩, Except.error "unused"⟩ "BTC" "5m"
      = "The future price prediction for BTC in 5m is 50000.00" :=
  get_price_prediction_success_format
    ⟨fun _ _ => Except.ok ⟨⟨"50000.00"⟩⟩, Except.error "unused"⟩
    "BTC" "5m" "50000.00" ⟨⟨"50000.00"⟩⟩ rfl rfl

/-- C2: for every token and timeframe, if the client's price-prediction
call raises an error with message `m`, `get_price_prediction` returns
exactly "Error getting price prediction: {m}" (and, being a total
function into `String`, does not propagate the error). -/
theorem get_price_prediction_error_format
    (c : AlloraAPIClient) (token timeframe m : String)
    (hc : c.get_price_prediction token timeframe = .error m) :
    get_price_prediction c token timeframe
      = "Error getting price prediction: " ++ m := by
  simp [get_price_prediction, get_price_prediction_body, runClient, hc]

/-- Witness for C2: a client raising "API error", as in the test suite. -/
theorem get_price_prediction_error_format_witness :
    get_price_prediction
        ⟨fun _ _ => Except.error "API error", Except.error "unused"⟩ "BTC" "5m"
      = "Error getting price prediction: API error" :=
  get_price_prediction_error_format
    ⟨fun _ _ => Except.error "API error", Except.error "unused"⟩
    "BTC" "5m" "API error" rfl

/-- C3: for every client whose all-topics call returns a list of topics
(a list value, with a JSON rendering `s`), `get_all_topics` returns the
fixed header "The available topics at Allora Network are:" followed by
the JSON rendering of that exact list. -/
theorem get_all_topics_success_format
    (c : AlloraAPIClient) (ts : List PyVal) (s : String)
    (hc : c.get_all_topics = .ok (.list ts))
    (hj : jsonDumps4 (.list ts) = .ok s) :
    get_all_topics c = "The available topics at Allora Network are:\n" ++ s := by
  simp [get_all_topics, get_all_topics_body, runClient, Except.bind, hc, hj]

/-- Witness for C3: a client returning two topic records; the handler
output is the header followed by their indent-4 JSON rendering. -/
theorem get_all_topics_success_format_witness :
    get_all_topics
        ⟨fun _ _ => Except.error "unused",
          Except.ok (.list
            [.dict [("topic_id", .int 1), ("topic_name", .str "BTC")],
             .dict [("topic_id", .int 2), ("topic_name", .str "ETH")]])⟩
      = "The available topics at Allora Network are:\n[\n    \x7b\n        \"topic_id\": 1,\n        \"topic_name\": \"BTC\"\n    \x7d,\n    \x7b\n        \"topic_id\": 2,\n        \"topic_name\": \"ETH\"\n    \x7d\n]" :=
  get_all_topics_success_format
    ⟨fun _ _ => Except.error "unused",
      Except.ok (.list
        [.dict [("topic_id", .int 1), ("topic_name", .str "BTC")],
         .dict [("topic_id", .int 2), ("topic_name", .str "ETH")]])⟩
    [.dict [("topic_id", .int 1), ("topic_name", .str "BTC")],
     .dict [("topic_id", .int 2), ("topic_name", .str "ETH")]]
    _ rfl rfl

/-- C4: for every client behaviour and every input, each handler returns
a string of one of its two documented shapes — success message or
labelled error message — so it never raises past validation (both
handlers are total functions into `String`, and every outcome of the
client is mapped to one of these shapes). -/
theorem handlers_always_return_a_string
    (c : AlloraAPIClient) (token timeframe : String) :
    ((∃ v, get_price_prediction c token timeframe
          = "The future price prediction for " ++ token ++ " in " ++ timeframe
              ++ " is " ++ v)
      ∨ (∃ m, get_price_prediction c token timeframe
          = "Error getting price prediction: " ++ m))
    ∧ ((∃ s, get_all_topics c
          = "The available topics at Allora Network are:\n" ++ s)
      ∨ (∃ m, get_all_topics c = "Error getting all topics: " ++ m)) := by
  constructor
  · cases hc : c.get_price_prediction token timeframe with
    | ok p =>
        exact Or.inl ⟨p.inference_data.network_inference_normalized,
          by simp [get_price_prediction, get_price_prediction_body, runClient, hc]⟩
    | error e =>
        exact Or.inr ⟨e,
          by simp [get_price_prediction, get_price_prediction_body, runClient, hc]⟩
  · cases hc : c.get_all_topics with
    | ok v =>
        cases hj : jsonDumps4 v with
        | ok s =>
            exact Or.inl ⟨s,
              by simp [get_all_topics, get_all_topics_body, runClient, Except.bind, hc, hj]⟩
        | error m =>
            exact Or.inr ⟨m,
              by simp [get_all_topics, get_all_topics_body, runClient, Except.bind, hc, hj]⟩
    | error m =>
        exact Or.inr ⟨m,
          by simp [get_all_topics, get_all_topics_body, runClient, hc]⟩

/-- C5: if the client's all-topics call raises an error with message
`m`, `get_all_topics` returns exactly "Error getting all topics: {m}". -/
theorem get_all_topics_error_format
    (c : AlloraAPIClient) (m : String)
    (hc : c.get_all_topics = .error m) :
    get_all_topics c = "Error getting all topics: " ++ m := by
  simp [get_all_topics, get_all_topics_body, runClient, hc]

/-- Witness for C5: a client raising "boom". -/
theorem get_all_topics_error_format_witness :
    get_all_topics ⟨fun _ _ => Except.error "unused", Except.error "boom"⟩
      = "Error getting all topics: boom" :=
  get_all_topics_error_format
    ⟨fun _ _ => Except.error "unused", Except.error "boom"⟩ "boom" rfl

/-- C6: the registry returns exactly one instance per known action
class — one GetAllTopicsAction and one GetPricePredictionAction — the
names of the returned instances are pairwise distinct, `ALLORA_ACTIONS`
is that result, and over an empty subclass list the registry loop
returns the empty sequence. -/
theorem get_all_allora_actions_registry :
    get_all_allora_actions
      = [instantiateAction .getAllTopicsActionClass,
         instantiateAction .getPricePredictionActionClass]
    ∧ (get_all_allora_actions.map AlloraAction.name).Nodup
    ∧ ALLORA_ACTIONS = get_all_allora_actions
    ∧ get_all_allora_actions_from [] = [] := by
  refine ⟨rfl, ?_, rfl, rfl⟩
  simp [get_all_allora_actions, get_all_allora_actions_from, alloraSubclasses,
    instantiateAction]

/-- C7: constructing GetPricePredictionInput with the token field
missing, the timeframe field missing, or both missing, fails pydantic
validation with a validation error instead of producing a record. -/
theorem get_price_prediction_input_missing_fields :
    (∀ tf, ∃ e, GetPricePredictionInput.validate none tf = .error e)
    ∧ (∀ t, ∃ e, GetPricePredictionInput.validate t none = .error e)
    ∧ (∃ e, GetPricePredictionInput.validate none none = .error e) := by
  refine ⟨?_, ?_, ⟨_, rfl⟩⟩
  · intro tf; cases tf <;> exact ⟨_, rfl⟩
  · intro t; cases t <;> exact ⟨_, rfl⟩

/-- C8: for every pair of strings, constructing GetPricePredictionInput
succeeds and reading back both fields yields the inputs unchanged. -/
theorem get_price_prediction_input_roundtrip (t tf : String) :
    ∃ r, GetPricePredictionInput.validate (some t) (some tf) = .ok r
      ∧ r.token = t ∧ r.timeframe = tf :=
  ⟨⟨t, tf⟩, rfl, rfl, rfl⟩

/-- C9: on every invocation, `get_price_prediction` performs exactly one
client call, the price-prediction operation with the received token and
timeframe in that order, and no other client operation. -/
theorem get_price_prediction_single_call
    (c : AlloraAPIClient) (token timeframe : String) :
    get_price_prediction_calls c token timeframe
      = [ClientCall.pricePrediction token timeframe] := by
  unfold get_price_prediction_calls get_price_prediction_body
  cases h : c.get_price_prediction token timeframe <;> simp [runClient, h]

/-- C10: if the all-topics call succeeds but the returned value cannot
be JSON-serialized (its serialization raises with message `m`),
`get_all_topics` still returns "Error getting all topics: {m}" rather
than raising: the except branch covers serialization failures too. -/
theorem get_all_topics_serialization_failure
    (c : AlloraAPIClient) (v : PyVal) (m : String)
    (hc : c.get_all_topics = .ok v)
    (hj : jsonDumps4 v = .error m) :
    get_all_topics c = "Error getting all topics: " ++ m := by
  simp [get_all_topics, get_all_topics_body, runClient, Except.bind, hc, hj]

/-- Witness for C10: the client call succeeds with a list containing a
non-serializable object (a pydantic TopicData instance); the handler
returns the stringified TypeError. -/
theorem get_all_topics_serialization_failure_witness :
    get_all_topics
        ⟨fun _ _ => Except.error "unused", Except.ok (.list [.obj "TopicData"])⟩
      = "Error getting all topics: Object of type TopicData is not JSON serializable" :=
  get_all_topics_serialization_failure
    ⟨fun _ _ => Except.error "unused", Except.ok (.list [.obj "TopicData"])⟩
    (.list [.obj "TopicData"]) "Object of type TopicData is not JSON serializable"
    rfl rfl
